import Mathlib

/-!
# Verification of the Basel apartment-listing scraper

A shallow embedding of `src/WebScraper_Basel_Kristian.py` and proofs about it.

The script has four stages: open a browser on a fixed URL (Page Loader),
extract four fields per listing container from the page markup
(`extract_listing_data`), paginate until the next-page control times out
(the `while True:` loop with `except TimeoutException: break`), and finally
`driver.quit()` followed by `df.to_csv('immoscout_basel_listings.csv',
index=True)`.

The embedding models a listing container by the results of the six
BeautifulSoup queries the script performs on it.  Each query either raises
an exception (modelled as `Except.error` with the exception's message) or
returns the `.text` of the first matching tag, if any (`Option String`).
The pagination loop is modelled as a step relation over an environment
listing, per iteration, the containers found on the current page and the
outcome of the try-block (next page reached, `TimeoutException`, or some
other exception).  Side effects that matter to the claims — scraping a
page, quitting the browser, writing the CSV file — are recorded in an
event trace.
-/

set_option autoImplicit false

namespace Scraper

/-- The result of one BeautifulSoup query on a listing container: the query
either raises an exception (message carried in `Except.error`) or returns
the raw `.text` of the first matching tag, `none` when nothing matches. -/
abbrev QueryResult := Except String (Option String)

/-- One listing container, i.e. one element of
`soup.select('div[data-test="result-list-item"]')`, abstracted as the
results of the six queries `extract_listing_data` performs on it.
The last field carries text reachable by any selector the script does
not use; the extractor must never consult it. -/
structure ListingContainer where
  /-- `listing.find('strong', class_='HgListingRoomsLivingSpacePrice_roomsLivingSpacePrice_M6Ktp')` -/
  find_strong_rooms_class : QueryResult
  /-- `listing.select_one("div:contains('rooms') strong")` -/
  select_one_rooms_fallback : QueryResult
  /-- `listing.find('strong', class_='HgListingRoomsLivingSpacePrice_commaPrice_mXXpt')` -/
  find_strong_comma_price_class : QueryResult
  /-- `listing.select_one("strong[title='living space']")` -/
  select_one_living_space_title : QueryResult
  /-- `listing.find('span', class_='HgListingRoomsLivingSpacePrice_price_u9Vee')` -/
  find_span_price_class : QueryResult
  /-- `listing.find('div', class_='HgListingCard_address_JGiFv')` -/
  find_div_address_class : QueryResult
  /-- Text reachable only by selectors the script never issues. -/
  other_markup_text : QueryResult

/-- One listing record, the dictionary `{'Rooms': …, 'Size': …, 'Price': …,
'Address': …}` appended to `scraped_data`. -/
structure ListingRecord where
  Rooms : String
  Size : String
  Price : String
  Address : String
deriving Repr, DecidableEq

/-- Lines 100–107 of the script: primary lookup by tag `strong` and rooms
class, fallback `select_one("div:contains('rooms') strong")`, sentinel
`"N/A"` when both miss.  `.text.strip()` is `String.trim`. -/
def extract_rooms (listing : ListingContainer) : Except String String := do
  let rooms ← listing.find_strong_rooms_class
  match rooms with
  | some t => pure t.trim
  | none =>
      let rooms ← listing.select_one_rooms_fallback
      match rooms with
      | some t => pure t.trim
      | none => pure "N/A"

/-- Lines 109–116: primary lookup by tag `strong` and comma-price class,
fallback `select_one("strong[title='living space']")`, sentinel `"N/A"`. -/
def extract_size (listing : ListingContainer) : Except String String := do
  let size ← listing.find_strong_comma_price_class
  match size with
  | some t => pure t.trim
  | none =>
      let size ← listing.select_one_living_space_title
      match size with
      | some t => pure t.trim
      | none => pure "N/A"

/-- Lines 118–121: a single lookup by tag `span` and price class; the
sentinel `"N/A"` is substituted directly when it misses.  No secondary
selector exists for this field in the script. -/
def extract_price (listing : ListingContainer) : Except String String := do
  let price ← listing.find_span_price_class
  match price with
  | some t => pure t.trim
  | none => pure "N/A"

/-- Lines 123–126: a single lookup by tag `div` and address class; the
sentinel `"N/A"` is substituted directly when it misses.  No secondary
selector exists for this field in the script. -/
def extract_address (listing : ListingContainer) : Except String String := do
  let address ← listing.find_div_address_class
  match address with
  | some t => pure t.trim
  | none => pure "N/A"

/-- The body of the `for listing in listings:` loop inside the `try:` block
(lines 99–134): extract the four fields in order and build the record.
An exception anywhere in the block aborts the whole container. -/
def extract_one (listing : ListingContainer) : Except String ListingRecord := do
  let rooms ← extract_rooms listing
  let size ← extract_size listing
  let price ← extract_price listing
  let address ← extract_address listing
  pure { Rooms := rooms, Size := size, Price := price, Address := address }

/-- A page, i.e. the list returned by
`soup.select('div[data-test="result-list-item"]')` in document order. -/
abbrev Page := List ListingContainer

/-- `extract_listing_data` (lines 79–138): iterate over the containers,
appending each successfully extracted record to the local `scraped_data`;
the `except Exception` clause (lines 135–136) drops the container whose
extraction raised and continues with the next one. -/
def extract_listing_data (listings : Page) : List ListingRecord :=
  listings.foldl
    (fun scraped_data listing =>
      match extract_one listing with
      | .ok record => scraped_data ++ [record]
      | .error _ => scraped_data)
    []

/-- The Python `extract_listing_data` runs with the module-level mutable
list `all_data` in scope.  Its translation threads that global explicitly:
the function body (lines 90–138) only ever touches the local
`scraped_data`, so the global component passes through unchanged. -/
def extract_listing_data_global (page_source : Page)
    (all_data : List ListingRecord) : List ListingRecord × List ListingRecord :=
  (extract_listing_data page_source, all_data)

/-- Outcome of one execution of the `try:` block of the pagination loop
(lines 156–174: scroll, sleep, wait for and click the next-page control,
wait for the new page's listings, sleep). -/
inductive TryOutcome where
  /-- The block ran to completion: the browser now shows the next page. -/
  | ok
  /-- A `TimeoutException` was raised somewhere in the block (typically by
  the bounded wait for `a[aria-label='Go to next page']`). -/
  | timeoutExc
  /-- An exception of any other class, carried as its message. -/
  | otherExc (e : String)
deriving Repr, DecidableEq

/-- The environment driving one run: for each iteration of the
`while True:` loop, the containers found on the page the browser shows at
the top of that iteration, and the outcome of the iteration's try-block. -/
abbrev Env := List (Page × TryOutcome)

/-- Observable side effects of the script, in order of occurrence. -/
inductive Event where
  /-- `scrape_data_from_page(driver)`: a page was scraped and
  `numExtracted` records were appended to `all_data`. -/
  | scrapePage (numExtracted : Nat)
  /-- `driver.quit()` (line 181). -/
  | quitBrowser
  /-- `df.to_csv(fname, index=True)` (line 185), with the written table. -/
  | writeCsv (fname : String) (table : List (List String))
deriving Repr, DecidableEq

/-- How the `while True:` loop (lines 153–178) ends. -/
inductive LoopExit where
  /-- The `except TimeoutException:` clause ran `break` (lines 175–178). -/
  | lastPage (all_data : List ListingRecord) (events : List Event)
  /-- An exception not matched by `except TimeoutException:` escaped the
  loop; the script terminates abnormally with it. -/
  | uncaught (e : String) (all_data : List ListingRecord) (events : List Event)
  /-- The environment horizon was exhausted with the loop still running
  (models a run that keeps finding next pages beyond the horizon). -/
  | horizonReached (all_data : List ListingRecord) (events : List Event)
deriving Repr, DecidableEq

/-- The pagination loop.  Each iteration first runs
`scrape_data_from_page(driver)` — extending the global `all_data` with the
records extracted from the current page — then runs the try-block, whose
outcome decides whether the loop continues, breaks, or lets an exception
propagate. -/
def pagination_loop : Env → List ListingRecord → List Event → LoopExit
  | [], all_data, events => .horizonReached all_data events
  | (page, outcome) :: rest, all_data, events =>
      let scraped_data := extract_listing_data page
      let all_data := all_data ++ scraped_data
      let events := events ++ [.scrapePage scraped_data.length]
      match outcome with
      | .ok => pagination_loop rest all_data events
      | .timeoutExc => .lastPage all_data events
      | .otherExc e => .uncaught e all_data events

/-- The fixed output filename (line 185). -/
def output_filename : String := "immoscout_basel_listings.csv"

/-- `pd.DataFrame(all_data)` followed by `.to_csv(…, index=True)`.
Pandas derives the columns from the records' dict keys, so with at least
one record the header row is the unnamed index column followed by Rooms,
Size, Price, Address, and each data row is the zero-based index followed
by the record's values in accumulation order.  `pd.DataFrame([])` has no
columns at all: its CSV is a single empty header line (just the unnamed
index placeholder), with no data rows. -/
def to_csv (records : List ListingRecord) : List (List String) :=
  match records with
  | [] => [[""]]
  | r :: rs =>
      ["", "Rooms", "Size", "Price", "Address"] ::
        ((r :: rs).enum.map
          (fun p => [toString p.1, p.2.Rooms, p.2.Size, p.2.Price, p.2.Address]))

/-- How a whole run of the script ends. -/
inductive ScriptResult where
  /-- Normal completion: loop broke on the timeout, browser was quit, CSV
  was written. -/
  | completed (events : List Event) (all_data : List ListingRecord)
  /-- An uncaught exception terminated the process: no `driver.quit()`,
  no CSV written. -/
  | terminatedAbnormally (events : List Event) (e : String)
  /-- Environment horizon exhausted mid-loop. -/
  | horizonReached (events : List Event)
deriving Repr, DecidableEq

/-- The whole script after page load: pagination loop, then — only when the
loop ends via the `TimeoutException` handler — `driver.quit()` followed by
`df.to_csv('immoscout_basel_listings.csv', index=True)`.  An exception that
escapes the loop skips both. -/
def script_run (env : Env) : ScriptResult :=
  match pagination_loop env [] [] with
  | .lastPage all_data events =>
      .completed
        (events ++ [.quitBrowser, .writeCsv output_filename (to_csv all_data)])
        all_data
  | .uncaught e _ events => .terminatedAbnormally events e
  | .horizonReached _ events => .horizonReached events

/-! ## Spec-side lookup strategies

These two definitions follow the spec's wording for the per-field lookup
strategy; the refinement theorem for C2 compares the code's extractors
against them. -/

/-- Spec wording: try the primary selector; if absent, try the secondary
selector; if both are absent, substitute the sentinel. -/
def two_tier_lookup (primary secondary : Option String) : String :=
  match primary with
  | some t => t.trim
  | none =>
      match secondary with
      | some t => t.trim
      | none => "N/A"

/-- Single-selector lookup: the sentinel is substituted as soon as the one
selector misses. -/
def one_tier_lookup (primary : Option String) : String :=
  match primary with
  | some t => t.trim
  | none => "N/A"

/-! ## Concrete containers used by witnesses and counterexamples -/

/-- A container on which every query succeeds but matches nothing. -/
def allNoneContainer : ListingContainer :=
  { find_strong_rooms_class := .ok none
    select_one_rooms_fallback := .ok none
    find_strong_comma_price_class := .ok none
    select_one_living_space_title := .ok none
    find_span_price_class := .ok none
    find_div_address_class := .ok none
    other_markup_text := .ok none }

/-- A container matched by every query the script performs — and rich in
other text — except the single price selector. -/
def priceOnlyMissContainer : ListingContainer :=
  { find_strong_rooms_class := .ok (some "3.5 rooms")
    select_one_rooms_fallback := .ok (some "3.5 rooms")
    find_strong_comma_price_class := .ok (some "80 m2")
    select_one_living_space_title := .ok (some "80 m2")
    find_span_price_class := .ok none
    find_div_address_class := .ok (some "Basel")
    other_markup_text := .ok (some "CHF 1,500.-") }

/-- A container where the rooms primary and the rooms fallback both match,
with different text. -/
def bothMatchContainer : ListingContainer :=
  { find_strong_rooms_class := .ok (some "3.5 rooms")
    select_one_rooms_fallback := .ok (some "2 rooms")
    find_strong_comma_price_class := .ok (some "80 m2")
    select_one_living_space_title := .ok (some "75 m2")
    find_span_price_class := .ok (some "CHF 1,500.-")
    find_div_address_class := .ok (some "Basel")
    other_markup_text := .ok none }

/-- A container whose first query raises, so the whole container's
extraction raises. -/
def raisingContainer : ListingContainer :=
  { allNoneContainer with find_strong_rooms_class := .error "boom" }

/-! ## Helper lemmas about the extractor

The `Except` do-notation only reduces definitionally once the scrutinised
query result is a constructor, so each extractor first gets an explicit
match-form equation. -/

lemma extract_rooms_def (l : ListingContainer) :
    extract_rooms l =
      match l.find_strong_rooms_class with
      | .error e => .error e
      | .ok (some t) => .ok t.trim
      | .ok none =>
          match l.select_one_rooms_fallback with
          | .error e => .error e
          | .ok (some t) => .ok t.trim
          | .ok none => .ok "N/A" := by
  unfold extract_rooms
  cases l.find_strong_rooms_class with
  | error e => rfl
  | ok o =>
    cases o with
    | some t => rfl
    | none =>
      cases l.select_one_rooms_fallback with
      | error e => rfl
      | ok o2 => cases o2 <;> rfl

lemma extract_size_def (l : ListingContainer) :
    extract_size l =
      match l.find_strong_comma_price_class with
      | .error e => .error e
      | .ok (some t) => .ok t.trim
      | .ok none =>
          match l.select_one_living_space_title with
          | .error e => .error e
          | .ok (some t) => .ok t.trim
          | .ok none => .ok "N/A" := by
  unfold extract_size
  cases l.find_strong_comma_price_class with
  | error e => rfl
  | ok o =>
    cases o with
    | some t => rfl
    | none =>
      cases l.select_one_living_space_title with
      | error e => rfl
      | ok o2 => cases o2 <;> rfl

lemma extract_price_def (l : ListingContainer) :
    extract_price l =
      match l.find_span_price_class with
      | .error e => .error e
      | .ok (some t) => .ok t.trim
      | .ok none => .ok "N/A" := by
  unfold extract_price
  cases l.find_span_price_class with
  | error e => rfl
  | ok o => cases o <;> rfl

lemma extract_address_def (l : ListingContainer) :
    extract_address l =
      match l.find_div_address_class with
      | .error e => .error e
      | .ok (some t) => .ok t.trim
      | .ok none => .ok "N/A" := by
  unfold extract_address
  cases l.find_div_address_class with
  | error e => rfl
  | ok o => cases o <;> rfl

lemma extract_one_def (l : ListingContainer) :
    extract_one l =
      match extract_rooms l with
      | .error e => .error e
      | .ok rooms =>
        match extract_size l with
        | .error e => .error e
        | .ok size =>
          match extract_price l with
          | .error e => .error e
          | .ok price =>
            match extract_address l with
            | .error e => .error e
            | .ok address => .ok ⟨rooms, size, price, address⟩ := by
  unfold extract_one
  cases extract_rooms l with
  | error e => rfl
  | ok rooms =>
    cases extract_size l with
    | error e => rfl
    | ok size =>
      cases extract_price l with
      | error e => rfl
      | ok price =>
        cases extract_address l with
        | error e => rfl
        | ok address => rfl

lemma extract_rooms_primary (l : ListingContainer) (t : String)
    (h : l.find_strong_rooms_class = .ok (some t)) :
    extract_rooms l = .ok t.trim := by
  simp [extract_rooms_def, h]

lemma extract_size_primary (l : ListingContainer) (t : String)
    (h : l.find_strong_comma_price_class = .ok (some t)) :
    extract_size l = .ok t.trim := by
  simp [extract_size_def, h]

lemma extract_price_primary (l : ListingContainer) (t : String)
    (h : l.find_span_price_class = .ok (some t)) :
    extract_price l = .ok t.trim := by
  simp [extract_price_def, h]

lemma extract_address_primary (l : ListingContainer) (t : String)
    (h : l.find_div_address_class = .ok (some t)) :
    extract_address l = .ok t.trim := by
  simp [extract_address_def, h]

lemma extract_one_ok_iff (l : ListingContainer) (r : ListingRecord) :
    extract_one l = .ok r ↔
      extract_rooms l = .ok r.Rooms ∧ extract_size l = .ok r.Size ∧
      extract_price l = .ok r.Price ∧ extract_address l = .ok r.Address := by
  obtain ⟨a, b, c, d⟩ := r
  rw [extract_one_def]
  cases h1 : extract_rooms l with
  | error e => simp
  | ok rooms =>
    cases h2 : extract_size l with
    | error e => simp
    | ok size =>
      cases h3 : extract_price l with
      | error e => simp
      | ok price =>
        cases h4 : extract_address l with
        | error e => simp
        | ok address =>
          simp [ListingRecord.mk.injEq, eq_comm]

lemma extract_rooms_ok_cases (l : ListingContainer) (v : String)
    (h : extract_rooms l = .ok v) :
    v = "N/A" ∨ ∃ t, v = t.trim ∧
      (l.find_strong_rooms_class = .ok (some t) ∨
       l.select_one_rooms_fallback = .ok (some t)) := by
  rw [extract_rooms_def] at h
  cases h1 : l.find_strong_rooms_class with
  | error e => rw [h1] at h; exact absurd h (by simp)
  | ok o1 =>
    cases o1 with
    | some t =>
      rw [h1] at h
      exact Or.inr ⟨t, by simpa using h.symm, Or.inl rfl⟩
    | none =>
      rw [h1] at h
      cases h2 : l.select_one_rooms_fallback with
      | error e => rw [h2] at h; exact absurd h (by simp)
      | ok o2 =>
        cases o2 with
        | some t =>
          rw [h2] at h
          exact Or.inr ⟨t, by simpa using h.symm, Or.inr rfl⟩
        | none =>
          rw [h2] at h
          exact Or.inl (by simpa using h.symm)

lemma extract_size_ok_cases (l : ListingContainer) (v : String)
    (h : extract_size l = .ok v) :
    v = "N/A" ∨ ∃ t, v = t.trim ∧
      (l.find_strong_comma_price_class = .ok (some t) ∨
       l.select_one_living_space_title = .ok (some t)) := by
  rw [extract_size_def] at h
  cases h1 : l.find_strong_comma_price_class with
  | error e => rw [h1] at h; exact absurd h (by simp)
  | ok o1 =>
    cases o1 with
    | some t =>
      rw [h1] at h
      exact Or.inr ⟨t, by simpa using h.symm, Or.inl rfl⟩
    | none =>
      rw [h1] at h
      cases h2 : l.select_one_living_space_title with
      | error e => rw [h2] at h; exact absurd h (by simp)
      | ok o2 =>
        cases o2 with
        | some t =>
          rw [h2] at h
          exact Or.inr ⟨t, by simpa using h.symm, Or.inr rfl⟩
        | none =>
          rw [h2] at h
          exact Or.inl (by simpa using h.symm)

lemma extract_price_ok_cases (l : ListingContainer) (v : String)
    (h : extract_price l = .ok v) :
    v = "N/A" ∨ ∃ t, v = t.trim ∧ l.find_span_price_class = .ok (some t) := by
  rw [extract_price_def] at h
  cases h1 : l.find_span_price_class with
  | error e => rw [h1] at h; exact absurd h (by simp)
  | ok o1 =>
    cases o1 with
    | some t =>
      rw [h1] at h
      exact Or.inr ⟨t, by simpa using h.symm, rfl⟩
    | none =>
      rw [h1] at h
      exact Or.inl (by simpa using h.symm)

lemma extract_address_ok_cases (l : ListingContainer) (v : String)
    (h : extract_address l = .ok v) :
    v = "N/A" ∨ ∃ t, v = t.trim ∧ l.find_div_address_class = .ok (some t) := by
  rw [extract_address_def] at h
  cases h1 : l.find_div_address_class with
  | error e => rw [h1] at h; exact absurd h (by simp)
  | ok o1 =>
    cases o1 with
    | some t =>
      rw [h1] at h
      exact Or.inr ⟨t, by simpa using h.symm, rfl⟩
    | none =>
      rw [h1] at h
      exact Or.inl (by simpa using h.symm)

lemma extract_listing_data_foldl (ls : Page) (acc : List ListingRecord) :
    ls.foldl
      (fun scraped_data listing =>
        match extract_one listing with
        | .ok record => scraped_data ++ [record]
        | .error _ => scraped_data)
      acc =
    acc ++ ls.filterMap (fun l => (extract_one l).toOption) := by
  induction ls generalizing acc with
  | nil => simp
  | cons l ls ih =>
    cases h : extract_one l with
    | ok r => simp [List.foldl_cons, h, ih, Except.toOption]
    | error e => simp [List.foldl_cons, h, ih, Except.toOption]

lemma extract_listing_data_eq_filterMap (ls : Page) :
    extract_listing_data ls = ls.filterMap (fun l => (extract_one l).toOption) := by
  simpa using extract_listing_data_foldl ls []

lemma extract_listing_data_append (xs ys : Page) :
    extract_listing_data (xs ++ ys) =
      extract_listing_data xs ++ extract_listing_data ys := by
  simp [extract_listing_data_eq_filterMap, List.filterMap_append]

/-! ## Helper lemmas about the pagination loop -/

/-- The event trace carried by a loop exit, whichever way the loop ended. -/
def LoopExit.events : LoopExit → List Event
  | .lastPage _ es => es
  | .uncaught _ _ es => es
  | .horizonReached _ es => es

/-- The accumulated `all_data` carried by a loop exit. -/
def LoopExit.all_data : LoopExit → List ListingRecord
  | .lastPage d _ => d
  | .uncaught _ d _ => d
  | .horizonReached d _ => d

/-- Records extracted from the pages of an environment, in visit order. -/
def env_records (env : Env) : List ListingRecord :=
  env.flatMap fun s => extract_listing_data s.1

/-- Scrape events for the pages of an environment, in visit order. -/
def env_scrape_events (env : Env) : List Event :=
  env.map fun s => .scrapePage (extract_listing_data s.1).length

lemma env_records_nil : env_records [] = [] := rfl

lemma env_records_append (xs ys : Env) :
    env_records (xs ++ ys) = env_records xs ++ env_records ys := by
  simp [env_records]

lemma pagination_loop_ok_steps (steps : Env) (hok : ∀ s ∈ steps, s.2 = TryOutcome.ok)
    (tail : Env) (acc : List ListingRecord) (evts : List Event) :
    pagination_loop (steps ++ tail) acc evts =
      pagination_loop tail (acc ++ env_records steps)
        (evts ++ env_scrape_events steps) := by
  induction steps generalizing acc evts with
  | nil => simp [env_records, env_scrape_events]
  | cons s steps ih =>
    obtain ⟨page, outcome⟩ := s
    have hs : outcome = TryOutcome.ok := hok (page, outcome) (by simp)
    subst hs
    rw [List.cons_append]
    rw [show pagination_loop ((page, TryOutcome.ok) :: (steps ++ tail)) acc evts =
        pagination_loop (steps ++ tail) (acc ++ extract_listing_data page)
          (evts ++ [.scrapePage (extract_listing_data page).length]) from rfl]
    rw [ih (fun s hs => hok s (by simp [hs]))]
    simp [env_records, env_scrape_events]

lemma pagination_loop_events_shape (env : Env) (acc : List ListingRecord)
    (evts : List Event) :
    ∃ ks : List Nat,
      (pagination_loop env acc evts).events = evts ++ ks.map Event.scrapePage := by
  induction env generalizing acc evts with
  | nil => exact ⟨[], by simp [pagination_loop, LoopExit.events]⟩
  | cons s env ih =>
    obtain ⟨page, outcome⟩ := s
    cases outcome with
    | ok =>
      rw [show pagination_loop ((page, TryOutcome.ok) :: env) acc evts =
          pagination_loop env (acc ++ extract_listing_data page)
            (evts ++ [.scrapePage (extract_listing_data page).length]) from rfl]
      obtain ⟨ks, hks⟩ :=
        ih (acc ++ extract_listing_data page)
          (evts ++ [.scrapePage (extract_listing_data page).length])
      exact ⟨(extract_listing_data page).length :: ks, by simp [hks]⟩
    | timeoutExc =>
      exact ⟨[(extract_listing_data page).length], by simp [pagination_loop, LoopExit.events]⟩
    | otherExc e =>
      exact ⟨[(extract_listing_data page).length], by simp [pagination_loop, LoopExit.events]⟩

/-- Normal completion always has the shape: scrape events in page order,
then `driver.quit()`, then the single CSV write of the accumulated data. -/
lemma script_run_completed_shape (env : Env) (events : List Event)
    (all_data : List ListingRecord)
    (h : script_run env = .completed events all_data) :
    ∃ ks : List Nat,
      events = ks.map Event.scrapePage ++
        [Event.quitBrowser, Event.writeCsv output_filename (to_csv all_data)] := by
  unfold script_run at h
  cases hloop : pagination_loop env [] [] with
  | lastPage d es =>
    rw [hloop] at h
    obtain ⟨ks, hks⟩ := pagination_loop_events_shape env [] []
    rw [hloop] at hks
    simp only [LoopExit.events] at hks
    cases h
    exact ⟨ks, by simp [hks]⟩
  | uncaught e d es => rw [hloop] at h; cases h
  | horizonReached d es => rw [hloop] at h; cases h

/-- An abnormal termination's trace holds only scrape events: in
particular the browser was never quit and no CSV was written. -/
lemma script_run_abnormal_shape (env : Env) (events : List Event) (e : String)
    (h : script_run env = .terminatedAbnormally events e) :
    ∃ ks : List Nat, events = ks.map Event.scrapePage := by
  unfold script_run at h
  cases hloop : pagination_loop env [] [] with
  | lastPage d es => rw [hloop] at h; cases h
  | uncaught e' d es =>
    rw [hloop] at h
    obtain ⟨ks, hks⟩ := pagination_loop_events_shape env [] []
    rw [hloop] at hks
    simp only [LoopExit.events] at hks
    cases h
    exact ⟨ks, by simpa using hks⟩
  | horizonReached d es => rw [hloop] at h; cases h

/-! ## Contracts used by the claim theorems -/

/-- True of the write events only. -/
def isWriteEvent : Event → Bool
  | .writeCsv _ _ => true
  | _ => false

/-- True of the `driver.quit()` event only. -/
def isQuitEvent : Event → Bool
  | .quitBrowser => true
  | _ => false

/-- Per-field sentinel contract: when a field's lookups all return nothing,
the field's value in the record is the exact string `"N/A"`. -/
def sentinel_na_contract (l : ListingContainer) (r : ListingRecord) : Prop :=
  (l.find_strong_rooms_class = .ok none → l.select_one_rooms_fallback = .ok none →
    r.Rooms = "N/A")
  ∧ (l.find_strong_comma_price_class = .ok none → l.select_one_living_space_title = .ok none →
    r.Size = "N/A")
  ∧ (l.find_span_price_class = .ok none → r.Price = "N/A")
  ∧ (l.find_div_address_class = .ok none → r.Address = "N/A")

/-- The record produced from a container whose queries returned the given
values: two-tier lookups for Rooms and Size, one-tier lookups for Price and
Address. -/
def tier_contract (l : ListingContainer) (r1 r2 s1 s2 pr ad : Option String) : Prop :=
  extract_one l = .ok
    { Rooms := two_tier_lookup r1 r2, Size := two_tier_lookup s1 s2,
      Price := one_tier_lookup pr, Address := one_tier_lookup ad }

/-- Error isolation: a raising container vanishes from the result while
its siblings keep their order, and each field extractor reads only its own
field's queries. -/
def isolation_contract (xs ys : Page) (bad : ListingContainer) : Prop :=
  extract_listing_data (xs ++ bad :: ys) =
      extract_listing_data xs ++ extract_listing_data ys
  ∧ (∀ l l' : ListingContainer,
      l.find_strong_rooms_class = l'.find_strong_rooms_class →
      l.select_one_rooms_fallback = l'.select_one_rooms_fallback →
      extract_rooms l = extract_rooms l')
  ∧ (∀ l l' : ListingContainer,
      l.find_strong_comma_price_class = l'.find_strong_comma_price_class →
      l.select_one_living_space_title = l'.select_one_living_space_title →
      extract_size l = extract_size l')
  ∧ (∀ l l' : ListingContainer,
      l.find_span_price_class = l'.find_span_price_class →
      extract_price l = extract_price l')
  ∧ (∀ l l' : ListingContainer,
      l.find_div_address_class = l'.find_div_address_class →
      extract_address l = extract_address l')

/-- Each produced field is the sentinel or the trimmed text of one of the
field's own selectors. -/
def record_fields_from (l : ListingContainer) (r : ListingRecord) : Prop :=
  (r.Rooms = "N/A" ∨ ∃ t, r.Rooms = t.trim ∧
      (l.find_strong_rooms_class = .ok (some t) ∨
       l.select_one_rooms_fallback = .ok (some t)))
  ∧ (r.Size = "N/A" ∨ ∃ t, r.Size = t.trim ∧
      (l.find_strong_comma_price_class = .ok (some t) ∨
       l.select_one_living_space_title = .ok (some t)))
  ∧ (r.Price = "N/A" ∨ ∃ t, r.Price = t.trim ∧ l.find_span_price_class = .ok (some t))
  ∧ (r.Address = "N/A" ∨ ∃ t, r.Address = t.trim ∧ l.find_div_address_class = .ok (some t))

/-- What actually happens when an exception of a class other than
`TimeoutException` is raised in the pagination try-block after `steps`
successful iterations: the run terminates abnormally with that exception,
never quitting the browser and never writing a CSV — while the same run
with a `TimeoutException` at that point completes normally. -/
def other_exception_contract (steps : Env) (p : Page) (e : String) (rest : Env) : Prop :=
  (∃ events,
      script_run (steps ++ (p, TryOutcome.otherExc e) :: rest) =
        ScriptResult.terminatedAbnormally events e
      ∧ Event.quitBrowser ∉ events
      ∧ (∀ f t, Event.writeCsv f t ∉ events))
  ∧ (∃ events all_data,
      script_run (steps ++ (p, TryOutcome.timeoutExc) :: rest) =
        ScriptResult.completed events all_data)

/-- Normal termination on timeout, with the accumulated record count equal
to the sum of the per-page extracted counts over the visited pages. -/
def timeout_contract (steps : Env) (p : Page) (rest : Env) : Prop :=
  ∃ all_data events,
    pagination_loop (steps ++ (p, TryOutcome.timeoutExc) :: rest) [] [] =
      LoopExit.lastPage all_data events
    ∧ script_run (steps ++ (p, TryOutcome.timeoutExc) :: rest) =
        ScriptResult.completed
          (events ++ [Event.quitBrowser, Event.writeCsv output_filename (to_csv all_data)])
          all_data
    ∧ all_data.length =
        ((steps.map Prod.fst ++ [p]).map fun pg => (extract_listing_data pg).length).sum

/-- The output contract: exactly one CSV write, of the fixed filename;
when at least one record was accumulated the header is
`[index, Rooms, Size, Price, Address]` and row `j + 1` holds the `j`-th
accumulated record behind its index; a zero-record run writes a single
empty header line and no data rows, because `pd.DataFrame([])` has no
columns. -/
def output_contract (events : List Event) (all_data : List ListingRecord) : Prop :=
  events.filter isWriteEvent = [Event.writeCsv output_filename (to_csv all_data)]
  ∧ output_filename = "immoscout_basel_listings.csv"
  ∧ (all_data ≠ [] →
      (to_csv all_data).head? = some ["", "Rooms", "Size", "Price", "Address"])
  ∧ (all_data = [] → to_csv all_data = [[""]])
  ∧ (to_csv all_data).length = all_data.length + 1
  ∧ ∀ (j : Nat) (r : ListingRecord), all_data.get? j = some r →
      (to_csv all_data).get? (j + 1) =
        some [toString j, r.Rooms, r.Size, r.Price, r.Address]

/-- On normal completion the trace is: scrape events only, then one
`driver.quit()`, then the single CSV write. -/
def quit_once_contract (events : List Event) (all_data : List ListingRecord) : Prop :=
  (∃ ks : List Nat,
      events = ks.map Event.scrapePage ++
        [Event.quitBrowser, Event.writeCsv output_filename (to_csv all_data)])
  ∧ events.filter isQuitEvent = [Event.quitBrowser]

/-- Per-field primary preference: whenever the primary selector matches,
the field's value is the primary match's trimmed text, whatever the rest of
the container (fallbacks included) holds. -/
def primary_preference_contract (l : ListingContainer) (t : String) : Prop :=
  (l.find_strong_rooms_class = .ok (some t) → extract_rooms l = .ok t.trim)
  ∧ (l.find_strong_comma_price_class = .ok (some t) → extract_size l = .ok t.trim)
  ∧ (l.find_span_price_class = .ok (some t) → extract_price l = .ok t.trim)
  ∧ (l.find_div_address_class = .ok (some t) → extract_address l = .ok t.trim)

/-! ## Claim theorems -/

/-- C1, counterexample: the claim names `"not available"` as the exact
sentinel, but a container on which every lookup misses produces the record
`{'Rooms': "N/A", 'Size': "N/A", 'Price': "N/A", 'Address': "N/A"}` — the
script's sentinel (lines 106, 115, 120, 125) is the string `"N/A"`, which
differs from `"not available"`. -/
theorem C1_sentinel_counterexample :
    extract_one allNoneContainer = .ok ⟨"N/A", "N/A", "N/A", "N/A"⟩
    ∧ ("N/A" : String) ≠ "not available" :=
  ⟨rfl, by decide⟩

/-- C1, amended: for every listing container and every one of the four
fields, if the field cannot be located by any of its selectors, the
extractor substitutes the exact sentinel string `"N/A"` (not
`"not available"`) as that field's value in the produced record. -/
theorem C1_sentinel_na (l : ListingContainer) (r : ListingRecord)
    (h : extract_one l = .ok r) :
    sentinel_na_contract l r := by
  obtain ⟨hr, hs, hp, ha⟩ := (extract_one_ok_iff l r).mp h
  refine ⟨?_, ?_, ?_, ?_⟩
  · intro h1 h2
    rw [extract_rooms_def, h1, h2] at hr
    simpa using hr.symm
  · intro h1 h2
    rw [extract_size_def, h1, h2] at hs
    simpa using hs.symm
  · intro h1
    rw [extract_price_def, h1] at hp
    simpa using hp.symm
  · intro h1
    rw [extract_address_def, h1] at ha
    simpa using ha.symm

/-- C1, witness: the all-miss container concretely gets `"N/A"`
everywhere. -/
theorem C1_sentinel_na_witness :
    extract_one allNoneContainer = .ok ⟨"N/A", "N/A", "N/A", "N/A"⟩
    ∧ sentinel_na_contract allNoneContainer ⟨"N/A", "N/A", "N/A", "N/A"⟩ :=
  ⟨rfl, C1_sentinel_na allNoneContainer ⟨"N/A", "N/A", "N/A", "N/A"⟩ rfl⟩

/-- C2, counterexample: the claim says every field's lookup — Price and
Address included — tries a secondary selector before the sentinel.  On
this container the single price selector misses while every other query
(the rooms fallback, the living-space fallback, the address selector, and
all other markup text) returns text; the price still comes out as the
sentinel, because the script has no secondary selector for Price (lines
118–121). -/
theorem C2_two_tier_counterexample :
    priceOnlyMissContainer.find_span_price_class = .ok none
    ∧ priceOnlyMissContainer.select_one_rooms_fallback = .ok (some "3.5 rooms")
    ∧ priceOnlyMissContainer.select_one_living_space_title = .ok (some "80 m2")
    ∧ priceOnlyMissContainer.find_div_address_class = .ok (some "Basel")
    ∧ priceOnlyMissContainer.other_markup_text = .ok (some "CHF 1,500.-")
    ∧ extract_price priceOnlyMissContainer = .ok "N/A" :=
  ⟨rfl, rfl, rfl, rfl, rfl, rfl⟩

/-- C2, amended: extraction applies the two-tier lookup (primary selector,
then secondary selector, then sentinel) for Rooms and Size only; Price and
Address are looked up by a single primary selector, with the sentinel
substituted as soon as it misses. -/
theorem C2_lookup_tiers (l : ListingContainer) (r1 r2 s1 s2 pr ad : Option String)
    (h1 : l.find_strong_rooms_class = .ok r1)
    (h2 : l.select_one_rooms_fallback = .ok r2)
    (h3 : l.find_strong_comma_price_class = .ok s1)
    (h4 : l.select_one_living_space_title = .ok s2)
    (h5 : l.find_span_price_class = .ok pr)
    (h6 : l.find_div_address_class = .ok ad) :
    tier_contract l r1 r2 s1 s2 pr ad := by
  unfold tier_contract
  rw [extract_one_def, extract_rooms_def, extract_size_def, extract_price_def,
    extract_address_def, h1, h2, h3, h4, h5, h6]
  cases r1 <;> cases r2 <;> cases s1 <;> cases s2 <;> cases pr <;> cases ad <;>
    simp [two_tier_lookup, one_tier_lookup]

/-- C2, witness: the tier contract evaluated on a fully matching
container. -/
theorem C2_lookup_tiers_witness :
    bothMatchContainer.find_strong_rooms_class = .ok (some "3.5 rooms")
    ∧ bothMatchContainer.select_one_rooms_fallback = .ok (some "2 rooms")
    ∧ bothMatchContainer.find_strong_comma_price_class = .ok (some "80 m2")
    ∧ bothMatchContainer.select_one_living_space_title = .ok (some "75 m2")
    ∧ bothMatchContainer.find_span_price_class = .ok (some "CHF 1,500.-")
    ∧ bothMatchContainer.find_div_address_class = .ok (some "Basel")
    ∧ tier_contract bothMatchContainer (some "3.5 rooms") (some "2 rooms")
        (some "80 m2") (some "75 m2") (some "CHF 1,500.-") (some "Basel") :=
  ⟨rfl, rfl, rfl, rfl, rfl, rfl,
    C2_lookup_tiers bothMatchContainer (some "3.5 rooms") (some "2 rooms")
      (some "80 m2") (some "75 m2") (some "CHF 1,500.-") (some "Basel")
      rfl rfl rfl rfl rfl rfl⟩

/-- C3, counterexample: the claim says any exception in the pagination
block is absorbed like the timeout, with the run going on to close the
session and write output.  A run whose first try-block raises a
non-timeout exception instead terminates abnormally: no `driver.quit()`
event and no write event occur. -/
theorem C3_exception_counterexample :
    script_run [([], TryOutcome.otherExc "StaleElementReferenceException")] =
      ScriptResult.terminatedAbnormally [Event.scrapePage 0]
        "StaleElementReferenceException"
    ∧ Event.quitBrowser ∉ [Event.scrapePage 0]
    ∧ [Event.scrapePage 0].filter isWriteEvent = [] :=
  ⟨rfl, by decide, rfl⟩

/-- C3, amended: only `TimeoutException` is absorbed by the pagination
loop and treated as graceful termination; an exception of any other class
raised inside the pagination block propagates, terminating the run with no
browser close and no output write. -/
theorem C3_exception_handling (steps : Env) (p : Page) (e : String) (rest : Env)
    (hok : ∀ s ∈ steps, s.2 = TryOutcome.ok) :
    other_exception_contract steps p e rest := by
  have hother : pagination_loop (steps ++ (p, TryOutcome.otherExc e) :: rest) [] [] =
      .uncaught e (env_records steps ++ extract_listing_data p)
        (env_scrape_events steps ++ [.scrapePage (extract_listing_data p).length]) := by
    rw [pagination_loop_ok_steps steps hok]
    rfl
  have htime : pagination_loop (steps ++ (p, TryOutcome.timeoutExc) :: rest) [] [] =
      .lastPage (env_records steps ++ extract_listing_data p)
        (env_scrape_events steps ++ [.scrapePage (extract_listing_data p).length]) := by
    rw [pagination_loop_ok_steps steps hok]
    rfl
  constructor
  · refine ⟨env_scrape_events steps ++ [.scrapePage (extract_listing_data p).length],
      ?_, ?_, ?_⟩
    · unfold script_run
      rw [hother]
    · intro hmem
      rcases List.mem_append.mp hmem with hmem | hmem
      · obtain ⟨s, -, hs⟩ := List.mem_map.mp hmem
        exact Event.noConfusion hs
      · exact Event.noConfusion (List.mem_singleton.mp hmem)
    · intro f t hmem
      rcases List.mem_append.mp hmem with hmem | hmem
      · obtain ⟨s, -, hs⟩ := List.mem_map.mp hmem
        exact Event.noConfusion hs
      · exact Event.noConfusion (List.mem_singleton.mp hmem)
  · refine ⟨env_scrape_events steps ++ [.scrapePage (extract_listing_data p).length]
        ++ [Event.quitBrowser,
            Event.writeCsv output_filename
              (to_csv (env_records steps ++ extract_listing_data p))],
      env_records steps ++ extract_listing_data p, ?_⟩
    unfold script_run
    rw [htime]

/-- C3, witness: the exception-handling contract at the smallest
environment. -/
theorem C3_exception_handling_witness :
    (∀ s ∈ ([] : Env), s.2 = TryOutcome.ok)
    ∧ other_exception_contract [] [] "StaleElementReferenceException" [] :=
  ⟨fun s hs => absurd hs (List.not_mem_nil s),
    C3_exception_handling [] [] "StaleElementReferenceException" []
      (fun s hs => absurd hs (List.not_mem_nil s))⟩

/-- C4: every record produced by the extractor has exactly the four fields
Rooms, Size, Price, Address (the record type has no others), and each
field's value is either the trimmed text of one of that field's selectors
or the sentinel — never null or absent, which the `String` field types rule
out by construction. -/
theorem C4_record_shape (page : Page) (r : ListingRecord)
    (h : r ∈ extract_listing_data page) :
    ∃ l ∈ page, extract_one l = .ok r ∧ record_fields_from l r := by
  rw [extract_listing_data_eq_filterMap] at h
  obtain ⟨l, hl, hok⟩ := List.mem_filterMap.mp h
  have hok' : extract_one l = .ok r := by
    cases he : extract_one l with
    | error e => rw [he] at hok; exact absurd hok (by simp [Except.toOption])
    | ok a =>
      rw [he] at hok
      simp only [Except.toOption, Option.some.injEq] at hok
      exact congrArg Except.ok hok
  obtain ⟨hr, hs, hp, ha⟩ := (extract_one_ok_iff l r).mp hok'
  exact ⟨l, hl, hok',
    extract_rooms_ok_cases l r.Rooms hr,
    extract_size_ok_cases l r.Size hs,
    extract_price_ok_cases l r.Price hp,
    extract_address_ok_cases l r.Address ha⟩

/-- C4, witness: the sentinel record extracted from the all-miss container
satisfies the field contract. -/
theorem C4_record_shape_witness :
    (⟨"N/A", "N/A", "N/A", "N/A"⟩ : ListingRecord) ∈
        extract_listing_data [allNoneContainer]
    ∧ ∃ l ∈ [allNoneContainer],
        extract_one l = .ok ⟨"N/A", "N/A", "N/A", "N/A"⟩
        ∧ record_fields_from l ⟨"N/A", "N/A", "N/A", "N/A"⟩ :=
  have hmem : (⟨"N/A", "N/A", "N/A", "N/A"⟩ : ListingRecord) ∈
      extract_listing_data [allNoneContainer] := by
    rw [show extract_listing_data [allNoneContainer] =
        [⟨"N/A", "N/A", "N/A", "N/A"⟩] from rfl]
    exact List.mem_singleton.mpr rfl
  ⟨hmem, C4_record_shape [allNoneContainer] ⟨"N/A", "N/A", "N/A", "N/A"⟩ hmem⟩

/-- C5: a container whose extraction raises contributes no record, and the
other containers of the page are still extracted in their original order;
and each field's extraction reads only that field's own queries, so a miss
in one field leaves the other three fields untouched. -/
theorem C5_isolation (xs ys : Page) (bad : ListingContainer) (e : String)
    (hbad : extract_one bad = .error e) :
    isolation_contract xs ys bad := by
  refine ⟨?_, ?_, ?_, ?_, ?_⟩
  · rw [extract_listing_data_eq_filterMap, extract_listing_data_eq_filterMap,
      extract_listing_data_eq_filterMap, List.filterMap_append, List.filterMap_cons,
      hbad]
    rfl
  · intro l l' h1 h2
    rw [extract_rooms_def, extract_rooms_def, h1, h2]
  · intro l l' h1 h2
    rw [extract_size_def, extract_size_def, h1, h2]
  · intro l l' h1
    rw [extract_price_def, extract_price_def, h1]
  · intro l l' h1
    rw [extract_address_def, extract_address_def, h1]

/-- C5, witness: a raising container sandwiched between two well-formed
ones. -/
theorem C5_isolation_witness :
    extract_one raisingContainer = .error "boom"
    ∧ isolation_contract [allNoneContainer] [bothMatchContainer] raisingContainer :=
  ⟨rfl, C5_isolation [allNoneContainer] [bothMatchContainer] raisingContainer "boom" rfl⟩

/-- C6: when the bounded wait for the next-page control raises
`TimeoutException` after any number of successful page transitions, the
pagination loop breaks (it neither hangs nor propagates), the run completes
normally through `driver.quit()` and the CSV write, and the accumulated
record count equals the sum of the per-page extracted counts over all
visited pages. -/
theorem C6_timeout_termination (steps : Env) (p : Page) (rest : Env)
    (hok : ∀ s ∈ steps, s.2 = TryOutcome.ok) :
    timeout_contract steps p rest := by
  have hloop : pagination_loop (steps ++ (p, TryOutcome.timeoutExc) :: rest) [] [] =
      .lastPage (env_records steps ++ extract_listing_data p)
        (env_scrape_events steps ++ [.scrapePage (extract_listing_data p).length]) := by
    rw [pagination_loop_ok_steps steps hok]
    rfl
  refine ⟨env_records steps ++ extract_listing_data p,
    env_scrape_events steps ++ [.scrapePage (extract_listing_data p).length],
    hloop, ?_, ?_⟩
  · unfold script_run
    rw [hloop]
  · simp [env_records, List.length_flatMap, List.map_map, Function.comp_def]

/-- C6, witness: one fully scraped page, then a timeout on the second. -/
theorem C6_timeout_termination_witness :
    (∀ s ∈ [([allNoneContainer], TryOutcome.ok)], s.2 = TryOutcome.ok)
    ∧ timeout_contract [([allNoneContainer], TryOutcome.ok)] [bothMatchContainer] [] :=
  have hok : ∀ s ∈ [([allNoneContainer], TryOutcome.ok)], s.2 = TryOutcome.ok := by
    intro s hs
    rw [List.mem_singleton.mp hs]
  ⟨hok, C6_timeout_termination [([allNoneContainer], TryOutcome.ok)] [bothMatchContainer] [] hok⟩

/-- C7, counterexample: the claim asserts the written file's columns are
`[index, Rooms, Size, Price, Address]` on every completed run, but a
completed run that accumulated zero records (one page with no listing
containers, then the timeout) hands `pd.DataFrame` an empty list, which
has no columns: the written file is a single empty header line, not the
five-column header. -/
theorem C7_output_counterexample :
    script_run [([], TryOutcome.timeoutExc)] =
      ScriptResult.completed
        [Event.scrapePage 0, Event.quitBrowser,
          Event.writeCsv output_filename (to_csv [])] []
    ∧ to_csv [] = [[""]]
    ∧ ([[""]] : List (List String)).head? ≠
        some ["", "Rooms", "Size", "Price", "Address"] :=
  ⟨rfl, rfl, by decide⟩

/-- C7, amended: on normal completion the run writes exactly one
comma-separated table, under the fixed name
`immoscout_basel_listings.csv`; when at least one record was accumulated
its header is `[index, Rooms, Size, Price, Address]` and its row `j + 1`
is the `j`-th accumulated record in accumulation order, led by its row
index; a run that accumulated zero records writes a file with no columns
(a single empty header line). -/
theorem C7_output_format (env : Env) (events : List Event)
    (all_data : List ListingRecord)
    (h : script_run env = .completed events all_data) :
    output_contract events all_data := by
  obtain ⟨ks, hks⟩ := script_run_completed_shape env events all_data h
  subst hks
  refine ⟨?_, rfl, ?_, ?_, ?_, ?_⟩
  · rw [List.filter_append]
    have h1 : (ks.map Event.scrapePage).filter isWriteEvent = [] := by
      simp [List.filter_map, Function.comp_def, isWriteEvent]
    rw [h1]
    rfl
  · intro hne
    cases all_data with
    | nil => exact absurd rfl hne
    | cons a as => rfl
  · intro he
    subst he
    rfl
  · cases all_data with
    | nil => rfl
    | cons a as => simp [to_csv]
  · intro j r hj
    cases all_data with
    | nil => exact absurd hj (by simp)
    | cons a as =>
      rw [List.get?_eq_getElem?] at hj ⊢
      simp [to_csv, List.getElem?_map, List.getElem?_enum, hj]

/-- C7, witness: the output contract evaluated on a one-page run. -/
theorem C7_output_format_witness :
    script_run [([allNoneContainer], TryOutcome.timeoutExc)] =
      ScriptResult.completed
        [Event.scrapePage 1, Event.quitBrowser,
          Event.writeCsv output_filename (to_csv [⟨"N/A", "N/A", "N/A", "N/A"⟩])]
        [⟨"N/A", "N/A", "N/A", "N/A"⟩]
    ∧ output_contract
        [Event.scrapePage 1, Event.quitBrowser,
          Event.writeCsv output_filename (to_csv [⟨"N/A", "N/A", "N/A", "N/A"⟩])]
        [⟨"N/A", "N/A", "N/A", "N/A"⟩] :=
  ⟨rfl, C7_output_format [([allNoneContainer], TryOutcome.timeoutExc)]
    [Event.scrapePage 1, Event.quitBrowser,
      Event.writeCsv output_filename (to_csv [⟨"N/A", "N/A", "N/A", "N/A"⟩])]
    [⟨"N/A", "N/A", "N/A", "N/A"⟩] rfl⟩

/-- C8: whenever a field's primary selector matches, the produced value is
the primary match's trimmed text — the fallback value is never consulted,
even on containers where both the primary and the fallback would match. -/
theorem C8_primary_preferred (l : ListingContainer) (t : String) :
    primary_preference_contract l t :=
  ⟨extract_rooms_primary l t, extract_size_primary l t,
    extract_price_primary l t, extract_address_primary l t⟩

/-- C8, witness: on a container where the rooms primary (`"3.5 rooms"`)
and the rooms fallback (`"2 rooms"`) both match, the primary wins. -/
theorem C8_primary_preferred_witness :
    bothMatchContainer.find_strong_rooms_class = .ok (some "3.5 rooms")
    ∧ bothMatchContainer.select_one_rooms_fallback = .ok (some "2 rooms")
    ∧ extract_rooms bothMatchContainer = .ok ("3.5 rooms".trim) :=
  ⟨rfl, rfl, (C8_primary_preferred bothMatchContainer "3.5 rooms").1 rfl⟩

/-- C9: on the normal-completion path the browser session is closed exactly
once, after every scrape event (the loop can no longer iterate) and before
the write event. -/
theorem C9_quit_once (env : Env) (events : List Event)
    (all_data : List ListingRecord)
    (h : script_run env = .completed events all_data) :
    quit_once_contract events all_data := by
  obtain ⟨ks, hks⟩ := script_run_completed_shape env events all_data h
  subst hks
  refine ⟨⟨ks, rfl⟩, ?_⟩
  rw [List.filter_append]
  have h1 : (ks.map Event.scrapePage).filter isQuitEvent = [] := by
    simp [List.filter_map, Function.comp_def, isQuitEvent]
  rw [h1]
  rfl

/-- C9, witness: the quit-once contract on a run whose only page has no
listings. -/
theorem C9_quit_once_witness :
    script_run [([], TryOutcome.timeoutExc)] =
      ScriptResult.completed
        [Event.scrapePage 0, Event.quitBrowser,
          Event.writeCsv output_filename (to_csv [])] []
    ∧ quit_once_contract
        [Event.scrapePage 0, Event.quitBrowser,
          Event.writeCsv output_filename (to_csv [])] [] :=
  ⟨rfl, C9_quit_once [([], TryOutcome.timeoutExc)]
    [Event.scrapePage 0, Event.quitBrowser,
      Event.writeCsv output_filename (to_csv [])] [] rfl⟩

/-- C10: the field-extraction function is deterministic and self-contained:
its result does not depend on the global accumulator, the invocation leaves
the global accumulator unchanged, and a page source with no listing
containers yields the empty sequence rather than an error. -/
theorem C10_extractor_pure (page : Page) (g g' : List ListingRecord) :
    (extract_listing_data_global page g).1 = (extract_listing_data_global page g').1
    ∧ (extract_listing_data_global page g).2 = g
    ∧ extract_listing_data [] = [] :=
  ⟨rfl, rfl, rfl⟩

end Scraper
